import Mathlib

/-!
Verification development for the dockhand-tavern refresh-and-cache subsystem.

The definitions below are a shallow embedding of the TypeScript sources:
  * `src/utils.ts`    — port extraction, network-IP extraction, NPM proxy lookup,
                        URL building, icon resolution, container processing;
  * `src/cache.ts`    — the `CacheManager` refresh cycle (`doRefresh`) and the
                        debounce/lock coordinator (`refresh`), the latter as an
                        event-driven state machine;
  * `src/dockhand-client.ts` / `src/npm-client.ts` — the session-client request
                        pattern (authenticate, single re-auth retry on 401).

Modelling conventions:
  * JavaScript string maps (`Record<string, string>`) are embedded as total
    functions `String → Option String` (a missing key is `none`).
  * JavaScript truthiness on optional strings (`if (x)`) is `jsTruthy`
    (present and non-empty); on optional numbers it is `natTruthy`
    (present and nonzero).
  * `String.prototype.toLowerCase` is modelled per character with the ASCII
    case mapping `charToLower`; characters outside `[a-z0-9-]` are stripped by
    the sanitizer afterwards, so the exotic Unicode mappings never reach the
    output.
  * `Date.now()` timestamps are abstract `Nat` clock values.
  * Fallible fetch operations are `Except String` values (the `String` is the
    thrown error's message).
-/

/-- `DockhandEnvironment` from `src/types.ts`. -/
structure DockhandEnvironment where
  id : Nat
  name : String
  type : String
  publicIp : String
deriving Repr, DecidableEq

/-- `DockhandPort` from `src/types.ts`. The source field `Type`
("tcp" | "udp") is `typ` here because `Type` is reserved in Lean. -/
structure DockhandPort where
  IP : String
  PrivatePort : Nat
  PublicPort : Nat
  typ : String
deriving Repr, DecidableEq

/-- `DockhandContainer` from `src/types.ts`, restricted to the fields the
resolution pipeline reads.  `networks` maps a network name to its
`ipAddress`; `labels` maps a label key to its value. -/
structure DockhandContainer where
  id : String
  name : String
  image : String
  state : String
  ports : List DockhandPort
  networks : String → Option String
  labels : String → Option String

/-- `NpmProxyHost` from `src/npm-types.ts`, restricted to the fields read by
`findNpmProxyUrl` (the remaining metadata fields are never consulted). -/
structure NpmProxyHost where
  id : Nat
  domain_names : List String
  forward_host : String
  forward_port : Nat
  certificate_id : Nat
  ssl_forced : Bool
  enabled : Bool
deriving Repr, DecidableEq

/-- The `environment` value copy stored in a `ProcessedContainer`. -/
structure EnvironmentRef where
  id : Nat
  name : String
  publicIp : String
deriving Repr, DecidableEq

/-- `ProcessedContainer` from `src/types.ts`. -/
structure ProcessedContainer where
  id : String
  displayName : String
  group : String
  environment : EnvironmentRef
  url : String
  icon : Option String
  iconUrl : String
  image : String
deriving Repr, DecidableEq

/-- `CacheData` from `src/types.ts`; `lastUpdate` is an abstract clock value. -/
structure CacheData where
  environments : List DockhandEnvironment
  containers : List ProcessedContainer
  lastUpdate : Nat
  error : Option String
deriving Repr, DecidableEq

/-- JavaScript truthiness of an optional string: `undefined` and `""` are
falsy, every other string is truthy. -/
def jsTruthy : Option String → Bool
  | none => false
  | some s => s != ""

/-- JavaScript truthiness of an optional number: `null` and `0` are falsy. -/
def natTruthy : Option Nat → Bool
  | none => false
  | some n => n != 0

/-- JavaScript `a || b` where `a` is an optional string and `b` a string. -/
def jsOr (a : Option String) (b : String) : String :=
  if jsTruthy a then a.getD "" else b

/-- Insert into an ascending list, keeping it ascending. -/
def insertSorted (n : Nat) : List Nat → List Nat
  | [] => [n]
  | m :: rest => if n ≤ m then n :: m :: rest else m :: insertSorted n rest

/-- Numeric ascending sort, modelling `Array.sort((a, b) => a - b)`
(the port lists it sorts are duplicate-free, so any sort agrees). -/
def sortAsc (l : List Nat) : List Nat := l.foldr insertSorted []

/-- `extractPorts` from `src/utils.ts`: keep ports that are published to a
host address, drop IPv6 duplicates, loopback and non-TCP entries, dedup, and
sort ascending. -/
def extractPorts (ports : List DockhandPort) : List Nat :=
  let uniquePorts := ports.foldl (fun acc port =>
    if port.PublicPort == 0 || port.IP == "" then acc
    else if port.IP == "::" then acc
    else if port.IP == "" || port.IP == "127.0.0.1" then acc
    else if port.typ != "tcp" then acc
    else if port.PublicPort ∈ acc then acc
    else acc ++ [port.PublicPort]) ([] : List Nat)
  sortAsc uniquePorts

/-- `extractNetworkIp` from `src/utils.ts`: the `dhcp-ext` network's address,
rejecting the empty string and the zero address. -/
def extractNetworkIp (networks : String → Option String) : Option String :=
  match networks "dhcp-ext" with
  | none => none
  | some ip => if ip == "" || ip == "0.0.0.0" then none else some ip

/-- The filter predicate inside `findNpmProxyUrl` (`src/utils.ts` line 76):
enabled, and `forward_host:forward_port` equals `envIp:containerPort`. -/
def npmHostMatches (envIp : String) (containerPort : Nat) (host : NpmProxyHost) : Bool :=
  host.enabled && host.forward_host == envIp && host.forward_port == containerPort

/-- `findNpmProxyUrl` from `src/utils.ts`: first matching enabled proxy host,
its first domain name (empty/missing domain yields `null`), scheme `https`
iff `ssl_forced` or a nonzero `certificate_id`. -/
def findNpmProxyUrl (envIp : String) (containerPort : Nat)
    (npmProxyHosts : List NpmProxyHost) : Option String :=
  match npmProxyHosts.filter (npmHostMatches envIp containerPort) with
  | [] => none
  | mtch :: _ =>
    match mtch.domain_names.head? with
    | none => none
    | some domain =>
      if domain == "" then none
      else
        let hasSSL := mtch.ssl_forced || mtch.certificate_id != 0
        some ((if hasSSL then "https" else "http") ++ "://" ++ domain)

/-- `buildContainerUrl` from `src/utils.ts`: priority chain
custom-URL label, NPM proxy host, synthesized `http://ip:port`, network-IP
URL, defensive `http://ip` fallback. -/
def buildContainerUrl (container : DockhandContainer) (firstPort : Option Nat)
    (envPublicIp : String) (networkIp : Option String)
    (npmProxyHosts : List NpmProxyHost) : String :=
  let customUrl := container.labels "dockhand-tavern.url"
  if jsTruthy customUrl then customUrl.getD ""
  else
    let npmUrl : Option String :=
      if natTruthy firstPort && npmProxyHosts.length > 0 then
        findNpmProxyUrl envPublicIp (firstPort.getD 0) npmProxyHosts
      else none
    if jsTruthy npmUrl then npmUrl.getD ""
    else if natTruthy firstPort then
      "http://" ++ envPublicIp ++ ":" ++ toString (firstPort.getD 0)
    else if jsTruthy networkIp then
      let customPort := container.labels "dockhand-tavern.port"
      if jsTruthy customPort then
        "http://" ++ networkIp.getD "" ++ ":" ++ customPort.getD ""
      else "http://" ++ networkIp.getD ""
    else "http://" ++ envPublicIp

/-- ASCII case mapping for one character, modelling the effect of
`String.prototype.toLowerCase` on the characters that can survive the
sanitizer's final strip. -/
def charToLower (c : Char) : Char :=
  if 65 ≤ c.toNat && c.toNat ≤ 90 then Char.ofNat (c.toNat + 32) else c

/-- The character class of the regex `[_\s]+` in `src/utils.ts` line 173:
underscore or JavaScript whitespace. -/
def isWsOrUnderscore (c : Char) : Bool :=
  c.toNat == 95 || c.toNat == 32 || (9 ≤ c.toNat && c.toNat ≤ 13) ||
  c.toNat == 160 || c.toNat == 0x1680 ||
  (0x2000 ≤ c.toNat && c.toNat ≤ 0x200a) || c.toNat == 0x2028 ||
  c.toNat == 0x2029 || c.toNat == 0x202f || c.toNat == 0x205f ||
  c.toNat == 0x3000 || c.toNat == 0xfeff

/-- The character class `[a-z0-9-]` of the final strip in `src/utils.ts`
line 174. -/
def isIconChar (c : Char) : Bool :=
  (97 ≤ c.toNat && c.toNat ≤ 122) || (48 ≤ c.toNat && c.toNat ≤ 57) ||
  c.toNat == 45

/-- `replace(/[_\s]+/g, '-')`: each maximal run of whitespace/underscore
characters becomes a single hyphen.  The boolean records whether the
previous character belonged to the run. -/
def collapseRunsAux : Bool → List Char → List Char
  | _, [] => []
  | prevWs, c :: rest =>
    if isWsOrUnderscore c then
      if prevWs then collapseRunsAux true rest
      else '-' :: collapseRunsAux true rest
    else c :: collapseRunsAux false rest

/-- The sanitization pipeline of `resolveIconUrl` (`src/utils.ts` lines
171-174): lowercase, collapse `[_\s]+` runs to `-`, strip everything outside
`[a-z0-9-]`. -/
def sanitizeIconName (s : String) : String :=
  String.mk ((collapseRunsAux false (s.data.map charToLower)).filter isIconChar)

/-- `replace(/\.png$/i, '')`: strip one trailing `.png` (case-insensitive). -/
def stripPngExt (s : String) : String :=
  let cs := s.data
  if 4 ≤ cs.length && (cs.drop (cs.length - 4)).map charToLower ==
      ['.', 'p', 'n', 'g'] then
    String.mk (cs.take (cs.length - 4))
  else s

/-- The CDN URL template of `src/utils.ts` line 180. -/
def mkIconCdnUrl (name : String) : String :=
  "https://cdn.jsdelivr.net/gh/selfhst/icons/png/" ++ name ++ ".png"

/-- `resolveIconUrl` from `src/utils.ts`. -/
def resolveIconUrl (iconLabel : Option String) (fallbackName : String) : String :=
  if jsTruthy iconLabel then
    let il := iconLabel.getD ""
    if il.startsWith "http://" || il.startsWith "https://" then il
    else mkIconCdnUrl (sanitizeIconName (stripPngExt il))
  else
    mkIconCdnUrl (sanitizeIconName
      (if fallbackName == "ungrouped" then "docker" else fallbackName))

/-- `processContainer` from `src/utils.ts`. -/
def processContainer (container : DockhandContainer)
    (environment : DockhandEnvironment)
    (npmProxyHosts : List NpmProxyHost) : Option ProcessedContainer :=
  let isDisabled := container.labels "dockhand-tavern.disable"
  if isDisabled == some "true" || isDisabled == some "1" then none
  else if container.state != "running" then none
  else
    let ports := extractPorts container.ports
    let networkIp := extractNetworkIp container.networks
    if ports.length == 0 && !(jsTruthy networkIp) then none
    else
      let group := jsOr (container.labels "dockhand-tavern.group") "ungrouped"
      let displayName :=
        jsOr (container.labels "dockhand-tavern.name")
          (jsOr (container.labels "com.docker.compose.service") container.name)
      let icon := container.labels "dockhand-tavern.icon"
      let firstPort := ports.head?
      let url := buildContainerUrl container firstPort environment.publicIp
        networkIp npmProxyHosts
      let iconUrl := resolveIconUrl icon displayName
      some {
        id := container.id
        displayName := displayName
        group := group
        environment := {
          id := environment.id
          name := environment.name
          publicIp := environment.publicIp }
        url := url
        icon := icon
        iconUrl := iconUrl
        image := container.image }

/-- `CacheManager.doRefresh` from `src/cache.ts`, as a pure function of the
previous cache state and the outcomes of the network fetches performed
during the cycle.
  * `npmFetch` is `none` when no NPM client is configured; otherwise it is
    the outcome of `npmClient.fetchProxyHosts()` (a failure is caught inside
    the cycle and replaced by the empty table).
  * `envsFetch` is the outcome of `client.fetchEnvironments()`; a failure
    lands in the outer catch, which keeps the previous data and records the
    error message and a fresh timestamp.
  * `containersFetch` maps an environment id to the outcome of
    `client.fetchContainers(env.id)`; a per-environment failure skips that
    environment's containers.
  * `now` is the `new Date()` timestamp taken when the cache is written. -/
def doRefresh (prev : CacheData)
    (npmFetch : Option (Except String (List NpmProxyHost)))
    (envsFetch : Except String (List DockhandEnvironment))
    (containersFetch : Nat → Except String (List DockhandContainer))
    (now : Nat) : CacheData :=
  let npmProxyHosts : List NpmProxyHost :=
    match npmFetch with
    | none => []
    | some (Except.ok hosts) => hosts
    | some (Except.error _) => []
  match envsFetch with
  | Except.error e => { prev with error := some e, lastUpdate := now }
  | Except.ok environments =>
    let allContainers := environments.foldl (fun acc env =>
      match containersFetch env.id with
      | Except.error _ => acc
      | Except.ok rawContainers =>
        acc ++ rawContainers.filterMap
          (fun container => processContainer container env npmProxyHosts)) []
    { environments := environments
      containers := allContainers
      lastUpdate := now
      error := none }

/-- The coordinator state of `CacheManager` (`src/cache.ts`):
`isRefreshing` and `pendingRefreshCount` are the source fields,
`timerArmed` is whether `debounceTimer` holds a live timer, and
`started`/`completed` are ghost counters of refresh cycles that have begun
and finished (instrumentation only — no source transition reads them). -/
structure CoordState where
  isRefreshing : Bool
  timerArmed : Bool
  pendingRefreshCount : Nat
  started : Nat
  completed : Nat
deriving Repr, DecidableEq

/-- The coordinator events.  `request` is a call to `refresh(client)`;
`timerFire` is the debounce timer callback running its synchronous prefix
(guard check, counter reset, lock acquisition, start of `doRefresh`);
`refreshDone` is `doRefresh` settling and the `finally` block releasing the
lock. -/
inductive CoordEvent where
  | request
  | timerFire
  | refreshDone
deriving Repr, DecidableEq

/-- One coordinator transition, following `CacheManager.refresh` in
`src/cache.ts`.  A `timerFire` with no armed timer and a `refreshDone` with
no running refresh cannot occur in the source; they are modelled as no-ops. -/
def coordStep (s : CoordState) : CoordEvent → CoordState
  | CoordEvent.request =>
    { s with pendingRefreshCount := s.pendingRefreshCount + 1, timerArmed := true }
  | CoordEvent.timerFire =>
    if !s.timerArmed then s
    else if s.isRefreshing then
      { s with timerArmed := false, pendingRefreshCount := 0 }
    else
      { s with timerArmed := false, pendingRefreshCount := 0,
               isRefreshing := true, started := s.started + 1 }
  | CoordEvent.refreshDone =>
    if s.isRefreshing then
      { s with isRefreshing := false, completed := s.completed + 1 }
    else s

/-- Run the coordinator over a sequence of events. -/
def coordRun (s : CoordState) (evs : List CoordEvent) : CoordState :=
  evs.foldl coordStep s

/-- The coordinator state at `CacheManager` construction. -/
def coordInit : CoordState :=
  { isRefreshing := false, timerArmed := false, pendingRefreshCount := 0,
    started := 0, completed := 0 }

/-- The response to the login exchange of `DockhandClient.authenticate`
(`src/dockhand-client.ts`): an HTTP status and the optional `set-cookie`
header. -/
structure AuthResponse where
  status : Nat
  setCookie : Option String
deriving Repr, DecidableEq

/-- `response.ok` of the fetch API: status in [200, 300). -/
def respOk (status : Nat) : Bool := 200 ≤ status && status < 300

/-- `DockhandClient.authenticate`: non-ok status or a missing `set-cookie`
header throws; otherwise the session cookie is stored. -/
def dockhandAuthenticate (resp : AuthResponse) : Except String String :=
  if !respOk resp.status then
    Except.error ("Authentication failed: " ++ toString resp.status)
  else
    match resp.setCookie with
    | some cookie => Except.ok cookie
    | none => Except.error "No session cookie received from Dockhand"

/-- The observable outcome of one `request` call of a session client:
the result (ok status or thrown error message), how many upstream data
requests were issued, how many authentication exchanges were performed, and
the credential left behind. -/
structure RequestTrace where
  result : Except String Nat
  fetches : Nat
  auths : Nat
  finalCredential : Option String
deriving Repr

/-- `DockhandClient.request` from `src/dockhand-client.ts`, as a pure
function of the stored cookie and oracles for the upstream responses:
`authResp n` is the response to the (n+1)-th login exchange of this call and
`fetchStatus n` the HTTP status of the (n+1)-th data request of this call.
Mirrors the source: ensure a credential (one login exchange if absent), issue
the request; on 401 clear the cookie, re-authenticate once, retry once; any
other non-ok status (and any non-ok retry status) throws. -/
def dockhandRequest (cookie0 : Option String)
    (authResp : Nat → AuthResponse) (fetchStatus : Nat → Nat) : RequestTrace :=
  let ensure : Except String String × Nat :=
    match cookie0 with
    | some c => (Except.ok c, 0)
    | none => (dockhandAuthenticate (authResp 0), 1)
  match ensure with
  | (Except.error e, a) =>
    { result := Except.error e, fetches := 0, auths := a, finalCredential := none }
  | (Except.ok cookie, a) =>
    let status := fetchStatus 0
    if status == 401 then
      match dockhandAuthenticate (authResp a) with
      | Except.error e =>
        { result := Except.error e, fetches := 1, auths := a + 1,
          finalCredential := none }
      | Except.ok cookie2 =>
        let retryStatus := fetchStatus 1
        if respOk retryStatus then
          { result := Except.ok retryStatus, fetches := 2, auths := a + 1,
            finalCredential := some cookie2 }
        else
          { result := Except.error ("Request failed: " ++ toString retryStatus),
            fetches := 2, auths := a + 1, finalCredential := some cookie2 }
    else if respOk status then
      { result := Except.ok status, fetches := 1, auths := a,
        finalCredential := some cookie }
    else
      { result := Except.error ("Request failed: " ++ toString status),
        fetches := 1, auths := a, finalCredential := some cookie }

/-- The response to the token exchange of `NpmClient.authenticate`
(`src/npm-client.ts`): an HTTP status and the token of the JSON body. -/
structure NpmAuthResponse where
  status : Nat
  token : String
deriving Repr, DecidableEq

/-- `NpmClient.authenticate`: non-ok status throws; otherwise the JWT token
of the response body is stored. -/
def npmAuthenticate (resp : NpmAuthResponse) : Except String String :=
  if !respOk resp.status then
    Except.error ("NPM authentication failed: " ++ toString resp.status)
  else Except.ok resp.token

/-- `NpmClient.request` from `src/npm-client.ts`; same shape as
`dockhandRequest` with the bearer token in place of the session cookie. -/
def npmRequest (token0 : Option String)
    (authResp : Nat → NpmAuthResponse) (fetchStatus : Nat → Nat) : RequestTrace :=
  let ensure : Except String String × Nat :=
    match token0 with
    | some t => (Except.ok t, 0)
    | none => (npmAuthenticate (authResp 0), 1)
  match ensure with
  | (Except.error e, a) =>
    { result := Except.error e, fetches := 0, auths := a, finalCredential := none }
  | (Except.ok token, a) =>
    let status := fetchStatus 0
    if status == 401 then
      match npmAuthenticate (authResp a) with
      | Except.error e =>
        { result := Except.error e, fetches := 1, auths := a + 1,
          finalCredential := none }
      | Except.ok token2 =>
        let retryStatus := fetchStatus 1
        if respOk retryStatus then
          { result := Except.ok retryStatus, fetches := 2, auths := a + 1,
            finalCredential := some token2 }
        else
          { result := Except.error ("NPM request failed: " ++ toString retryStatus),
            fetches := 2, auths := a + 1, finalCredential := some token2 }
    else if respOk status then
      { result := Except.ok status, fetches := 1, auths := a,
        finalCredential := some token }
    else
      { result := Except.error ("NPM request failed: " ++ toString status),
        fetches := 1, auths := a, finalCredential := some token }

/-- Remove one key from a label map (used to compare resolution on a record
carrying an empty-valued label with resolution on the same record without
that label). -/
def eraseLabel (labels : String → Option String) (key : String) :
    String → Option String :=
  fun k => if k = key then none else labels k

/-- The record of the spec's end-to-end example: running, one TCP port
published on `0.0.0.0:8080`, no labels, no networks. -/
def exampleRecord : DockhandContainer :=
  { id := "abc123"
    name := "myapp"
    image := "myimg:latest"
    state := "running"
    ports := [{ IP := "0.0.0.0", PrivatePort := 80, PublicPort := 8080, typ := "tcp" }]
    networks := fun _ => none
    labels := fun _ => none }

/-- The environment of the spec's end-to-end example. -/
def exampleEnvironment : DockhandEnvironment :=
  { id := 1, name := "prod", type := "docker", publicIp := "10.0.0.5" }

/-- An enabled proxy host that does not match `10.0.0.5:8080`
(different forward host). -/
def nonMatchingHost : NpmProxyHost :=
  { id := 7, domain_names := ["other.example.com"], forward_host := "10.0.0.99",
    forward_port := 8080, certificate_id := 0, ssl_forced := false, enabled := true }

/-- An enabled proxy host matching `10.0.0.5:8080` with an empty
`domain_names` list. -/
def emptyDomainsHost : NpmProxyHost :=
  { id := 8, domain_names := [], forward_host := "10.0.0.5",
    forward_port := 8080, certificate_id := 0, ssl_forced := false, enabled := true }

/-- An enabled proxy host matching `10.0.0.5:8080` with a domain name. -/
def domainHost : NpmProxyHost :=
  { id := 9, domain_names := ["app.example.com"], forward_host := "10.0.0.5",
    forward_port := 8080, certificate_id := 0, ssl_forced := true, enabled := true }

/-- A running record carrying empty-string `dockhand-tavern.url`,
`dockhand-tavern.group` and `dockhand-tavern.name` labels, plus a
compose-service label. -/
def emptyLabelRecord : DockhandContainer :=
  { exampleRecord with
    labels := fun k =>
      if k = "dockhand-tavern.url" then some ""
      else if k = "dockhand-tavern.group" then some ""
      else if k = "dockhand-tavern.name" then some ""
      else if k = "com.docker.compose.service" then some "svc"
      else none }

/-- A running record carrying an explicit URL label on top of a published
port (to exercise the priority chain head). -/
def customUrlRecord : DockhandContainer :=
  { exampleRecord with
    labels := fun k =>
      if k = "dockhand-tavern.url" then some "https://myapp.example.com" else none }

/-- Auth oracle for the client witnesses: every login exchange succeeds. -/
def witnessAuthResp : Nat → AuthResponse :=
  fun _ => { status := 200, setCookie := some "sid" }

/-- NPM auth oracle for the client witnesses: every token exchange succeeds. -/
def witnessNpmAuthResp : Nat → NpmAuthResponse :=
  fun _ => { status := 200, token := "jwt" }

/-- Fetch-status oracle for the client witnesses: the first data request is
rejected with 401, the retry fails with 500. -/
def witnessFetchStatus : Nat → Nat :=
  fun n => if n == 0 then 401 else 500

/-- The display entry produced for `emptyLabelRecord` in
`exampleEnvironment` with an empty proxy table. -/
def emptyLabelProcessed : ProcessedContainer :=
  { id := "abc123"
    displayName := "svc"
    group := "ungrouped"
    environment := { id := 1, name := "prod", publicIp := "10.0.0.5" }
    url := "http://10.0.0.5:8080"
    icon := none
    iconUrl := "https://cdn.jsdelivr.net/gh/selfhst/icons/png/svc.png"
    image := "myimg:latest" }

/-- A coordinator state in which a refresh cycle is executing: one request
was received, its debounce timer fired, and the cycle has not yet finished. -/
def midRefreshState : CoordState :=
  coordRun coordInit [CoordEvent.request, CoordEvent.timerFire]

lemma buildContainerUrl_of_customUrl (container : DockhandContainer)
    (fp : Option Nat) (ip : String) (nip : Option String)
    (hosts : List NpmProxyHost) (u : String)
    (hlab : container.labels "dockhand-tavern.url" = some u) (hu : u ≠ "") :
    buildContainerUrl container fp ip nip hosts = u := by
  have ht : jsTruthy (container.labels "dockhand-tavern.url") = true := by
    rw [hlab]; simp [jsTruthy, hu]
  simp only [buildContainerUrl]
  rw [ht, hlab]
  simp

lemma findNpmProxyUrl_ne_empty (envIp : String) (p : Nat)
    (hosts : List NpmProxyHost) (u : String)
    (h : findNpmProxyUrl envIp p hosts = some u) : u ≠ "" := by
  unfold findNpmProxyUrl at h
  split at h
  · exact absurd h (by simp)
  · split at h
    · exact absurd h (by simp)
    · split at h
      · exact absurd h (by simp)
      · rename_i mtch tail hfilter x domain hhead hne
        have h' : (if mtch.ssl_forced || mtch.certificate_id != 0 then "https"
            else "http") ++ "://" ++ domain = u := by
          simpa using h
        intro he
        rw [he] at h'
        have hlen := congrArg String.length h'
        rw [String.length_append, String.length_append] at hlen
        rw [show ("://" : String).length = 3 from rfl,
            show ("" : String).length = 0 from rfl] at hlen
        split at hlen
        · rw [show ("https" : String).length = 5 from rfl] at hlen; omega
        · rw [show ("http" : String).length = 4 from rfl] at hlen; omega

lemma buildContainerUrl_of_npm (container : DockhandContainer)
    (p : Nat) (ip : String) (nip : Option String)
    (hosts : List NpmProxyHost) (u : String)
    (hlab : jsTruthy (container.labels "dockhand-tavern.url") = false)
    (hp : p ≠ 0)
    (hnpm : findNpmProxyUrl ip p hosts = some u) :
    buildContainerUrl container (some p) ip nip hosts = u := by
  have hu : u ≠ "" := findNpmProxyUrl_ne_empty ip p hosts u hnpm
  have hhosts : hosts ≠ [] := by
    intro he
    rw [he] at hnpm
    exact absurd hnpm (by simp [findNpmProxyUrl])
  have hlen : decide (0 < hosts.length) = true :=
    decide_eq_true (List.length_pos.mpr hhosts)
  have hfp : natTruthy (some p) = true := by simp [natTruthy, hp]
  have hnt : jsTruthy (some u) = true := by simp [jsTruthy, hu]
  simp only [buildContainerUrl]
  rw [hlab]
  simp [hfp, hlen, hnpm, hnt]

lemma buildContainerUrl_synthesized (container : DockhandContainer)
    (p : Nat) (ip : String) (nip : Option String)
    (hosts : List NpmProxyHost)
    (hlab : jsTruthy (container.labels "dockhand-tavern.url") = false)
    (hp : p ≠ 0)
    (hnpm : findNpmProxyUrl ip p hosts = none) :
    buildContainerUrl container (some p) ip nip hosts =
      "http://" ++ ip ++ ":" ++ toString p := by
  have hfp : natTruthy (some p) = true := by simp [natTruthy, hp]
  simp only [buildContainerUrl]
  rw [hlab]
  simp [hfp, hnpm, show jsTruthy (none : Option String) = false from rfl]

lemma buildContainerUrl_of_networkIp (container : DockhandContainer)
    (fp : Option Nat) (ip : String) (nip : String)
    (hosts : List NpmProxyHost)
    (hlab : jsTruthy (container.labels "dockhand-tavern.url") = false)
    (hfp : natTruthy fp = false)
    (hnip : nip ≠ "") :
    buildContainerUrl container fp ip (some nip) hosts =
      (if jsTruthy (container.labels "dockhand-tavern.port") then
        "http://" ++ nip ++ ":" ++ (container.labels "dockhand-tavern.port").getD ""
      else "http://" ++ nip) := by
  have hnt : jsTruthy (some nip) = true := by simp [jsTruthy, hnip]
  simp only [buildContainerUrl]
  rw [hlab, hfp]
  simp [hnt, show jsTruthy (none : Option String) = false from rfl]

lemma processContainer_fields (container : DockhandContainer)
    (env : DockhandEnvironment) (hosts : List NpmProxyHost)
    (pc : ProcessedContainer)
    (h : processContainer container env hosts = some pc) :
    pc.group = jsOr (container.labels "dockhand-tavern.group") "ungrouped" ∧
    pc.displayName = jsOr (container.labels "dockhand-tavern.name")
      (jsOr (container.labels "com.docker.compose.service") container.name) ∧
    pc.url = buildContainerUrl container (extractPorts container.ports).head?
      env.publicIp (extractNetworkIp container.networks) hosts := by
  simp only [processContainer] at h
  split at h
  · exact absurd h (by simp)
  · split at h
    · exact absurd h (by simp)
    · split at h
      · exact absurd h (by simp)
      · rw [Option.some.injEq] at h
        subst h
        exact ⟨rfl, rfl, rfl⟩

lemma coordRun_append (s : CoordState) (l1 l2 : List CoordEvent) :
    coordRun s (l1 ++ l2) = coordRun (coordRun s l1) l2 :=
  List.foldl_append coordStep s l1 l2

lemma coordRun_replicate_request (n : Nat) (s : CoordState) :
    coordRun s (List.replicate n CoordEvent.request) =
      { s with pendingRefreshCount := s.pendingRefreshCount + n,
               timerArmed := (n != 0) || s.timerArmed } := by
  induction n generalizing s with
  | zero => simp [coordRun]
  | succ n ih =>
    rw [List.replicate_succ]
    show coordRun (coordStep s CoordEvent.request)
      (List.replicate n CoordEvent.request) = _
    rw [ih]
    simp [coordStep]
    omega

lemma coordStep_inflight (s : CoordState) (ev : CoordEvent)
    (h : s.started = s.completed + (if s.isRefreshing then 1 else 0)) :
    (coordStep s ev).started =
      (coordStep s ev).completed +
        (if (coordStep s ev).isRefreshing then 1 else 0) := by
  cases ev <;> simp [coordStep] <;> split <;> (try split) <;> simp_all

lemma coordRun_inflight (evs : List CoordEvent) (s : CoordState)
    (h : s.started = s.completed + (if s.isRefreshing then 1 else 0)) :
    (coordRun s evs).started =
      (coordRun s evs).completed +
        (if (coordRun s evs).isRefreshing then 1 else 0) := by
  induction evs generalizing s with
  | nil => exact h
  | cons ev rest ih =>
    show (coordRun (coordStep s ev) rest).started = _
    exact ih (coordStep s ev) (coordStep_inflight s ev h)

lemma charToLower_fixed {c : Char} (h : isIconChar c = true) :
    charToLower c = c := by
  simp only [isIconChar, Bool.or_eq_true, Bool.and_eq_true, decide_eq_true_eq,
    beq_iff_eq] at h
  unfold charToLower
  split
  · rename_i hcond
    simp only [Bool.and_eq_true, decide_eq_true_eq] at hcond
    omega
  · rfl

lemma not_ws_of_icon {c : Char} (h : isIconChar c = true) :
    isWsOrUnderscore c = false := by
  simp only [isIconChar, Bool.or_eq_true, Bool.and_eq_true, decide_eq_true_eq,
    beq_iff_eq] at h
  simp only [isWsOrUnderscore, Bool.or_eq_false_iff, Bool.and_eq_false_iff,
    beq_eq_false_iff_ne, ne_eq, decide_eq_false_iff_not, not_le]
  omega

lemma map_charToLower_id (l : List Char) (h : ∀ c ∈ l, isIconChar c = true) :
    l.map charToLower = l := by
  induction l with
  | nil => rfl
  | cons c rest ih =>
    rw [List.map_cons, charToLower_fixed (h c (List.mem_cons_self c rest)),
      ih (fun d hd => h d (List.mem_cons_of_mem c hd))]

lemma collapseRunsAux_id (b : Bool) (l : List Char)
    (h : ∀ c ∈ l, isWsOrUnderscore c = false) :
    collapseRunsAux b l = l := by
  induction l generalizing b with
  | nil => rfl
  | cons c rest ih =>
    have hc := h c (List.mem_cons_self c rest)
    simp only [collapseRunsAux, hc, Bool.false_eq_true, if_false]
    rw [ih false (fun d hd => h d (List.mem_cons_of_mem c hd))]

lemma dockhandRequest_bounds (c0 : Option String)
    (authResp : Nat → AuthResponse) (fetchStatus : Nat → Nat) :
    (dockhandRequest c0 authResp fetchStatus).fetches ≤ 2 ∧
    (dockhandRequest c0 authResp fetchStatus).auths ≤ 2 := by
  cases c0 <;> simp only [dockhandRequest] <;> (repeat' split) <;>
    (try simp_all) <;> omega

lemma npmRequest_bounds (t0 : Option String)
    (npmAuth : Nat → NpmAuthResponse) (fetchStatus : Nat → Nat) :
    (npmRequest t0 npmAuth fetchStatus).fetches ≤ 2 ∧
    (npmRequest t0 npmAuth fetchStatus).auths ≤ 2 := by
  cases t0 <;> simp only [npmRequest] <;> (repeat' split) <;>
    (try simp_all) <;> omega

lemma dockhandRequest_401 (cookie : String)
    (authResp : Nat → AuthResponse) (fetchStatus : Nat → Nat)
    (h401 : fetchStatus 0 = 401) :
    (dockhandRequest (some cookie) authResp fetchStatus).auths = 1 ∧
    (∀ c2, dockhandAuthenticate (authResp 0) = Except.ok c2 →
      (dockhandRequest (some cookie) authResp fetchStatus).fetches = 2) ∧
    (∀ c2, dockhandAuthenticate (authResp 0) = Except.ok c2 →
      respOk (fetchStatus 1) = false →
      (dockhandRequest (some cookie) authResp fetchStatus).result =
        Except.error ("Request failed: " ++ toString (fetchStatus 1))) ∧
    (∀ e, dockhandAuthenticate (authResp 0) = Except.error e →
      (dockhandRequest (some cookie) authResp fetchStatus).result
        = Except.error e ∧
      (dockhandRequest (some cookie) authResp fetchStatus).fetches = 1) := by
  refine ⟨?_, fun c2 hc2 => ?_, fun c2 hc2 hbad => ?_, fun e he => ?_⟩ <;>
    simp only [dockhandRequest, h401] <;>
    first
    | (cases hauth : dockhandAuthenticate (authResp 0) <;> simp [hauth] <;>
        split <;> rfl)
    | (simp [hc2] <;> split <;> rfl)
    | (simp [hc2, hbad])
    | (simp [he])

lemma npmRequest_401 (tok : String)
    (npmAuth : Nat → NpmAuthResponse) (fetchStatus : Nat → Nat)
    (h401 : fetchStatus 0 = 401) :
    (npmRequest (some tok) npmAuth fetchStatus).auths = 1 ∧
    (∀ t2, npmAuthenticate (npmAuth 0) = Except.ok t2 →
      (npmRequest (some tok) npmAuth fetchStatus).fetches = 2) ∧
    (∀ t2, npmAuthenticate (npmAuth 0) = Except.ok t2 →
      respOk (fetchStatus 1) = false →
      (npmRequest (some tok) npmAuth fetchStatus).result =
        Except.error ("NPM request failed: " ++ toString (fetchStatus 1))) ∧
    (∀ e, npmAuthenticate (npmAuth 0) = Except.error e →
      (npmRequest (some tok) npmAuth fetchStatus).result = Except.error e ∧
      (npmRequest (some tok) npmAuth fetchStatus).fetches = 1) := by
  refine ⟨?_, fun t2 ht2 => ?_, fun t2 ht2 hbad => ?_, fun e he => ?_⟩ <;>
    simp only [npmRequest, h401] <;>
    first
    | (cases hauth : npmAuthenticate (npmAuth 0) <;> simp [hauth] <;>
        split <;> rfl)
    | (simp [ht2] <;> split <;> rfl)
    | (simp [ht2, hbad])
    | (simp [he])

/-- C1: in a refresh cycle whose primary environment-list fetch fails, the
cache keeps the previously published environments and containers unchanged;
only the error field (set to the failure's message) and the lastUpdate
timestamp are written. -/
theorem doRefresh_primary_failure_frame (prev : CacheData)
    (npmFetch : Option (Except String (List NpmProxyHost))) (e : String)
    (containersFetch : Nat → Except String (List DockhandContainer))
    (now : Nat) :
    (doRefresh prev npmFetch (Except.error e) containersFetch now).environments
      = prev.environments ∧
    (doRefresh prev npmFetch (Except.error e) containersFetch now).containers
      = prev.containers ∧
    (doRefresh prev npmFetch (Except.error e) containersFetch now).error
      = some e ∧
    (doRefresh prev npmFetch (Except.error e) containersFetch now).lastUpdate
      = now :=
  ⟨rfl, rfl, rfl, rfl⟩

/-- C2 (amended): a refresh request submitted while a cycle is executing
arms the debounce timer; if the running cycle completes before the timer
fires, exactly one additional cycle starts at the fire, but if the timer
fires while the cycle is still in flight the fire is a no-op — the pending
request is dropped (counter reset, timer disarmed) and no additional cycle
is scheduled.  In every event sequence from the initial state, the number of
started cycles equals the number of completed cycles plus the in-flight
flag, so two cycles are never in flight simultaneously. -/
theorem coordinator_request_mid_refresh (s : CoordState)
    (hrun : s.isRefreshing = true) :
    (coordRun s [CoordEvent.request, CoordEvent.refreshDone,
      CoordEvent.timerFire]).started = s.started + 1 ∧
    (coordRun s [CoordEvent.request, CoordEvent.timerFire,
      CoordEvent.refreshDone]).started = s.started ∧
    (coordRun s [CoordEvent.request, CoordEvent.timerFire,
      CoordEvent.refreshDone]).pendingRefreshCount = 0 ∧
    (coordRun s [CoordEvent.request, CoordEvent.timerFire,
      CoordEvent.refreshDone]).timerArmed = false ∧
    (∀ evs : List CoordEvent,
      (coordRun coordInit evs).started =
        (coordRun coordInit evs).completed +
          (if (coordRun coordInit evs).isRefreshing then 1 else 0)) := by
  refine ⟨?_, ?_, ?_, ?_, fun evs => coordRun_inflight evs coordInit rfl⟩ <;>
    simp [coordRun, coordStep, hrun]

/-- Witness for the amended C2 at the concrete mid-refresh state reached by
one request and one timer fire. -/
theorem coordinator_request_mid_refresh_witness :
    midRefreshState.isRefreshing = true ∧
    (coordRun midRefreshState [CoordEvent.request, CoordEvent.refreshDone,
      CoordEvent.timerFire]).started = midRefreshState.started + 1 ∧
    (coordRun midRefreshState [CoordEvent.request, CoordEvent.timerFire,
      CoordEvent.refreshDone]).started = midRefreshState.started := by
  have h := coordinator_request_mid_refresh midRefreshState rfl
  exact ⟨rfl, h.1, h.2.1⟩

/-- C2 counterexample to the claim as stated: from the initial state, a
request arrives while a cycle is executing (after `request, timerFire` the
coordinator is refreshing), its debounce timer fires before the cycle
completes, and the request is dropped — after the cycle completes only the
one original cycle has ever started, the pending counter is reset and no
timer remains armed, so no additional cycle executes. -/
theorem coordinator_request_mid_refresh_dropped :
    (coordRun coordInit [CoordEvent.request, CoordEvent.timerFire]).isRefreshing
      = true ∧
    (coordRun coordInit [CoordEvent.request, CoordEvent.timerFire,
      CoordEvent.request, CoordEvent.timerFire, CoordEvent.refreshDone]).started
      = 1 ∧
    (coordRun coordInit [CoordEvent.request, CoordEvent.timerFire,
      CoordEvent.request, CoordEvent.timerFire,
      CoordEvent.refreshDone]).pendingRefreshCount = 0 ∧
    (coordRun coordInit [CoordEvent.request, CoordEvent.timerFire,
      CoordEvent.request, CoordEvent.timerFire,
      CoordEvent.refreshDone]).timerArmed = false := by
  decide

/-- C3: N ≥ 1 refresh requests submitted to an idle coordinator, each within
the debounce window of the previous one (no timer fire in between), start no
cycle during the burst and exactly one cycle when the window elapses after
the last request. -/
theorem coordinator_burst_coalesced (s : CoordState) (n : Nat)
    (hidle : s.isRefreshing = false) (hn : 1 ≤ n) :
    (coordRun s (List.replicate n CoordEvent.request)).started = s.started ∧
    (coordRun s (List.replicate n CoordEvent.request ++
      [CoordEvent.timerFire])).started = s.started + 1 := by
  have hne : (n != 0) = true := by
    simp only [bne_iff_ne, ne_eq]
    omega
  constructor
  · rw [coordRun_replicate_request]
  · rw [coordRun_append, coordRun_replicate_request]
    simp [coordRun, coordStep, hidle, hne]

/-- Witness for C3 with a burst of three requests from the initial state. -/
theorem coordinator_burst_coalesced_witness :
    coordInit.isRefreshing = false ∧ 1 ≤ 3 ∧
    (coordRun coordInit (List.replicate 3 CoordEvent.request)).started
      = coordInit.started ∧
    (coordRun coordInit (List.replicate 3 CoordEvent.request ++
      [CoordEvent.timerFire])).started = coordInit.started + 1 := by
  have h := coordinator_burst_coalesced coordInit 3 rfl (by decide)
  exact ⟨rfl, by decide, h.1, h.2⟩

/-- C4: URL resolution is a strict priority chain — a non-empty explicit
`dockhand-tavern.url` label is returned verbatim regardless of ports,
network IP and proxy table; otherwise a successful NPM proxy-host lookup on
(environment.publicIp, first reachable port) wins; otherwise the URL is
synthesized as `http://` with the environment IP and port, or from the
network IP (with an optional port label). -/
theorem buildContainerUrl_priority_chain
    (container : DockhandContainer) (fp : Option Nat) (ip : String)
    (nip : Option String) (nips : String) (hosts : List NpmProxyHost)
    (u : String) (p : Nat) :
    (container.labels "dockhand-tavern.url" = some u → u ≠ "" →
      buildContainerUrl container fp ip nip hosts = u) ∧
    (jsTruthy (container.labels "dockhand-tavern.url") = false → p ≠ 0 →
      findNpmProxyUrl ip p hosts = some u →
      buildContainerUrl container (some p) ip nip hosts = u) ∧
    (jsTruthy (container.labels "dockhand-tavern.url") = false → p ≠ 0 →
      findNpmProxyUrl ip p hosts = none →
      buildContainerUrl container (some p) ip nip hosts =
        "http://" ++ ip ++ ":" ++ toString p) ∧
    (jsTruthy (container.labels "dockhand-tavern.url") = false →
      natTruthy fp = false → nips ≠ "" →
      buildContainerUrl container fp ip (some nips) hosts =
        (if jsTruthy (container.labels "dockhand-tavern.port") then
          "http://" ++ nips ++ ":" ++
            (container.labels "dockhand-tavern.port").getD ""
        else "http://" ++ nips)) :=
  ⟨fun hlab hu => buildContainerUrl_of_customUrl container fp ip nip hosts u hlab hu,
   fun hlab hp hnpm => buildContainerUrl_of_npm container p ip nip hosts u hlab hp hnpm,
   fun hlab hp hnpm => buildContainerUrl_synthesized container p ip nip hosts hlab hp hnpm,
   fun hlab hfp hnip => buildContainerUrl_of_networkIp container fp ip nips hosts hlab hfp hnip⟩

/-- Witness for C4: a record whose label, proxy table and port satisfy
several rules at once takes the highest-priority one. -/
theorem buildContainerUrl_priority_chain_witness :
    buildContainerUrl customUrlRecord (some 8080) "10.0.0.5" none [domainHost]
      = "https://myapp.example.com" ∧
    buildContainerUrl exampleRecord (some 8080) "10.0.0.5" none [domainHost]
      = "https://app.example.com" ∧
    buildContainerUrl exampleRecord (some 8080) "10.0.0.5" none [nonMatchingHost]
      = "http://10.0.0.5:8080" ∧
    buildContainerUrl exampleRecord none "10.0.0.5" (some "172.16.0.9") []
      = "http://172.16.0.9" :=
  ⟨(buildContainerUrl_priority_chain customUrlRecord (some 8080) "10.0.0.5" none ""
      [domainHost] "https://myapp.example.com" 8080).1 rfl (by decide),
   (buildContainerUrl_priority_chain exampleRecord (some 8080) "10.0.0.5" none ""
      [domainHost] "https://app.example.com" 8080).2.1 rfl (by decide) rfl,
   (buildContainerUrl_priority_chain exampleRecord (some 8080) "10.0.0.5" none ""
      [nonMatchingHost] "" 8080).2.2.1 rfl (by decide) rfl,
   ((buildContainerUrl_priority_chain exampleRecord none "10.0.0.5" none "172.16.0.9"
      [] "" 8080).2.2.2 rfl rfl (by decide)).trans (by decide)⟩

/-- C5: the end-to-end example — a running record with one TCP port
published on 0.0.0.0:8080 and no labels, in an environment with public IP
10.0.0.5 and no matching proxy-host entry, resolves to url
`http://10.0.0.5:8080`, group `ungrouped`, and the record's raw name. -/
theorem processContainer_example_resolution :
    (processContainer exampleRecord exampleEnvironment [nonMatchingHost]).map
      ProcessedContainer.url = some "http://10.0.0.5:8080" ∧
    (processContainer exampleRecord exampleEnvironment []).map
      ProcessedContainer.url = some "http://10.0.0.5:8080" ∧
    (processContainer exampleRecord exampleEnvironment [nonMatchingHost]).map
      ProcessedContainer.group = some "ungrouped" ∧
    (processContainer exampleRecord exampleEnvironment [nonMatchingHost]).map
      ProcessedContainer.displayName = some exampleRecord.name := by
  refine ⟨?_, ?_, ?_, ?_⟩ <;> decide

/-- C6: a refresh cycle whose secondary (NPM proxy-host) fetch fails while
the primary fetches succeed behaves exactly like a cycle with no NPM source
(entries resolved against the empty proxy table) and like one whose NPM
fetch returned the empty table, publishing the freshly fetched environments
with no error and the new timestamp — the secondary failure never surfaces
past the cycle. -/
theorem doRefresh_secondary_failure_ok (prev : CacheData) (e : String)
    (envs : List DockhandEnvironment)
    (containersFetch : Nat → Except String (List DockhandContainer))
    (now : Nat) :
    doRefresh prev (some (Except.error e)) (Except.ok envs) containersFetch now
      = doRefresh prev none (Except.ok envs) containersFetch now ∧
    doRefresh prev (some (Except.error e)) (Except.ok envs) containersFetch now
      = doRefresh prev (some (Except.ok [])) (Except.ok envs) containersFetch now ∧
    (doRefresh prev (some (Except.error e)) (Except.ok envs) containersFetch
      now).error = none ∧
    (doRefresh prev (some (Except.error e)) (Except.ok envs) containersFetch
      now).lastUpdate = now ∧
    (doRefresh prev (some (Except.error e)) (Except.ok envs) containersFetch
      now).environments = envs :=
  ⟨rfl, rfl, rfl, rfl, rfl⟩

/-- C7: for every session-client fetch (both upstream clients): at most two
upstream data requests and at most two login exchanges ever occur; when the
authenticated request comes back 401, the client re-authenticates exactly
once, and if that re-authentication succeeds it retries exactly once; a
non-2xx retry propagates the transport error with no further attempts. -/
theorem sessionClient_unauthorized_retry
    (authResp : Nat → AuthResponse) (npmAuth : Nat → NpmAuthResponse)
    (fetchStatus : Nat → Nat) (cookie tok : String) :
    (∀ c0 : Option String,
      (dockhandRequest c0 authResp fetchStatus).fetches ≤ 2 ∧
      (dockhandRequest c0 authResp fetchStatus).auths ≤ 2 ∧
      (npmRequest c0 npmAuth fetchStatus).fetches ≤ 2 ∧
      (npmRequest c0 npmAuth fetchStatus).auths ≤ 2) ∧
    (fetchStatus 0 = 401 →
      (dockhandRequest (some cookie) authResp fetchStatus).auths = 1 ∧
      (∀ c2, dockhandAuthenticate (authResp 0) = Except.ok c2 →
        (dockhandRequest (some cookie) authResp fetchStatus).fetches = 2 ∧
        (respOk (fetchStatus 1) = false →
          (dockhandRequest (some cookie) authResp fetchStatus).result =
            Except.error ("Request failed: " ++ toString (fetchStatus 1)))) ∧
      (npmRequest (some tok) npmAuth fetchStatus).auths = 1 ∧
      (∀ t2, npmAuthenticate (npmAuth 0) = Except.ok t2 →
        (npmRequest (some tok) npmAuth fetchStatus).fetches = 2 ∧
        (respOk (fetchStatus 1) = false →
          (npmRequest (some tok) npmAuth fetchStatus).result =
            Except.error ("NPM request failed: " ++ toString (fetchStatus 1))))) := by
  constructor
  · intro c0
    obtain ⟨d1, d2⟩ := dockhandRequest_bounds c0 authResp fetchStatus
    obtain ⟨n1, n2⟩ := npmRequest_bounds c0 npmAuth fetchStatus
    exact ⟨d1, d2, n1, n2⟩
  · intro h401
    obtain ⟨da, df, dr, _⟩ := dockhandRequest_401 cookie authResp fetchStatus h401
    obtain ⟨na, nf, nr, _⟩ := npmRequest_401 tok npmAuth fetchStatus h401
    exact ⟨da, fun c2 hc2 => ⟨df c2 hc2, dr c2 hc2⟩,
           na, fun t2 ht2 => ⟨nf t2 ht2, nr t2 ht2⟩⟩

/-- Witness for C7 with oracles whose first data request is rejected with
401 and whose retry fails with 500. -/
theorem sessionClient_unauthorized_retry_witness :
    (dockhandRequest (some "sid") witnessAuthResp witnessFetchStatus).fetches
      = 2 ∧
    (dockhandRequest (some "sid") witnessAuthResp witnessFetchStatus).auths
      = 1 ∧
    (dockhandRequest (some "sid") witnessAuthResp witnessFetchStatus).result
      = Except.error "Request failed: 500" ∧
    (npmRequest (some "jwt") witnessNpmAuthResp witnessFetchStatus).fetches
      = 2 ∧
    (npmRequest (some "jwt") witnessNpmAuthResp witnessFetchStatus).auths
      = 1 ∧
    (npmRequest (some "jwt") witnessNpmAuthResp witnessFetchStatus).result
      = Except.error "NPM request failed: 500" := by
  have h := (sessionClient_unauthorized_retry witnessAuthResp
    witnessNpmAuthResp witnessFetchStatus "sid" "jwt").2 rfl
  obtain ⟨da, dok, na, nok⟩ := h
  obtain ⟨df, dr⟩ := dok "sid" rfl
  obtain ⟨nf, nr⟩ := nok "jwt" rfl
  exact ⟨df, da, (dr rfl).trans rfl, nf, na, (nr rfl).trans rfl⟩

/-- C8: the icon-name sanitization pipeline (lowercase, collapse
whitespace/underscore runs to a single hyphen, strip characters outside
`[a-z0-9-]`) is idempotent, and its output consists only of characters in
`[a-z0-9-]`. -/
theorem sanitizeIconName_idempotent_charset (s : String) :
    sanitizeIconName (sanitizeIconName s) = sanitizeIconName s ∧
    (sanitizeIconName s).data.all isIconChar = true := by
  have hmem : ∀ c ∈ (collapseRunsAux false (s.data.map charToLower)).filter
      isIconChar, isIconChar c = true :=
    fun c hc => List.of_mem_filter hc
  have key : ∀ L : List Char, (∀ c ∈ L, isIconChar c = true) →
      sanitizeIconName (String.mk L) = String.mk L := by
    intro L hL
    have h1 : L.map charToLower = L := map_charToLower_id L hL
    have h2 : collapseRunsAux false L = L :=
      collapseRunsAux_id false L (fun c hc => not_ws_of_icon (hL c hc))
    have h3 : L.filter isIconChar = L := List.filter_eq_self.mpr hL
    unfold sanitizeIconName
    rw [show (String.mk L).data = L from rfl, h1, h2, h3]
  exact ⟨key _ hmem, List.all_eq_true.mpr hmem⟩

/-- C9: when the first enabled proxy-host entry matching
(forwardHost, forwardPort) = (envIp, port) has an empty domain-name list,
the proxy lookup yields no URL — later matching entries are never
consulted — and URL resolution falls through to the synthesized
`http://envIp:port` form. -/
theorem findNpmProxyUrl_empty_domains_falls_through
    (envIp : String) (p : Nat) (hosts : List NpmProxyHost)
    (mtch : NpmProxyHost) (rest : List NpmProxyHost)
    (hfilter : hosts.filter (npmHostMatches envIp p) = mtch :: rest)
    (hdom : mtch.domain_names = []) :
    findNpmProxyUrl envIp p hosts = none ∧
    (∀ (container : DockhandContainer) (nip : Option String),
      jsTruthy (container.labels "dockhand-tavern.url") = false → p ≠ 0 →
      buildContainerUrl container (some p) envIp nip hosts =
        "http://" ++ envIp ++ ":" ++ toString p) := by
  have h1 : findNpmProxyUrl envIp p hosts = none := by
    unfold findNpmProxyUrl
    rw [hfilter]
    simp [hdom]
  exact ⟨h1, fun container nip hlab hp =>
    buildContainerUrl_synthesized container p envIp nip hosts hlab hp h1⟩

/-- Witness for C9: the table lists the empty-domains match before a match
that does carry a domain name, and the synthesized URL is still produced. -/
theorem findNpmProxyUrl_empty_domains_witness :
    findNpmProxyUrl "10.0.0.5" 8080 [emptyDomainsHost, domainHost] = none ∧
    buildContainerUrl exampleRecord (some 8080) "10.0.0.5" none
      [emptyDomainsHost, domainHost] = "http://10.0.0.5:8080" := by
  have h := findNpmProxyUrl_empty_domains_falls_through "10.0.0.5" 8080
    [emptyDomainsHost, domainHost] emptyDomainsHost [domainHost]
    (by decide) rfl
  exact ⟨h.1, (h.2 exampleRecord none rfl (by decide)).trans (by decide)⟩

/-- C10: a label present with the empty string as value is treated as
absent: an empty `dockhand-tavern.url` label leaves the URL chain identical
to the chain without that label, an empty `dockhand-tavern.group` label
yields group `ungrouped`, and an empty `dockhand-tavern.name` label falls
through to the compose-service label or raw name. -/
theorem emptyLabel_as_absent
    (container : DockhandContainer) (env : DockhandEnvironment)
    (hosts : List NpmProxyHost) (fp : Option Nat) (ip : String)
    (nip : Option String) (pc : ProcessedContainer) :
    (container.labels "dockhand-tavern.url" = some "" →
      buildContainerUrl container fp ip nip hosts =
        buildContainerUrl
          { container with
            labels := eraseLabel container.labels "dockhand-tavern.url" }
          fp ip nip hosts) ∧
    (container.labels "dockhand-tavern.group" = some "" →
      processContainer container env hosts = some pc → pc.group = "ungrouped") ∧
    (container.labels "dockhand-tavern.name" = some "" →
      processContainer container env hosts = some pc →
      pc.displayName =
        jsOr (container.labels "com.docker.compose.service") container.name) := by
  refine ⟨fun h1 => ?_, fun h2 hpc => ?_, fun h3 hpc => ?_⟩
  · have e1 : jsTruthy (container.labels "dockhand-tavern.url") = false := by
      rw [h1]; rfl
    have e2 : eraseLabel container.labels "dockhand-tavern.url"
        "dockhand-tavern.url" = none := by
      simp [eraseLabel]
    have e3 : eraseLabel container.labels "dockhand-tavern.url"
        "dockhand-tavern.port" = container.labels "dockhand-tavern.port" := by
      simp [eraseLabel]
    have e4 : jsTruthy (none : Option String) = false := rfl
    simp only [buildContainerUrl, e1, e2, e3, e4]
    simp
  · have hg := (processContainer_fields container env hosts pc hpc).1
    rw [hg, h2]
    rfl
  · have hn := (processContainer_fields container env hosts pc hpc).2.1
    rw [hn, h3]
    rfl

/-- Witness for C10 on a record carrying empty url/group/name labels and a
compose-service label. -/
theorem emptyLabel_as_absent_witness :
    buildContainerUrl emptyLabelRecord (some 8080) "10.0.0.5" none [] =
      buildContainerUrl
        { emptyLabelRecord with
          labels := eraseLabel emptyLabelRecord.labels "dockhand-tavern.url" }
        (some 8080) "10.0.0.5" none [] ∧
    emptyLabelProcessed.group = "ungrouped" ∧
    emptyLabelProcessed.displayName = "svc" := by
  have h := emptyLabel_as_absent emptyLabelRecord exampleEnvironment []
    (some 8080) "10.0.0.5" none emptyLabelProcessed
  exact ⟨h.1 rfl, h.2.1 rfl (by decide), h.2.2 rfl (by decide)⟩
